import Mathlib

/-!
Shallow embedding of the `appstoreconnect` client (files `src/client.rs`,
`src/error.rs`, `src/entities.rs`) together with theorems settling the
specification claims about it.

External collaborators (the HTTP transport, the JSON codec and the JWT
signing primitive) are abstracted as function parameters; everything the
repository itself computes is translated directly from the source.
-/

namespace AppStoreConnect

/-! ## Errors (`src/error.rs`) -/

/-- One structured error entry, `error.rs` lines 65-71. -/
structure ServerError where
  status : String
  code : String
  title : String
  detail : String
deriving Repr, DecidableEq

/-- The structured error envelope `{errors: [...]}`, `error.rs` lines 60-63. -/
structure ServerErrors where
  errors : List ServerError
deriving Repr, DecidableEq

/-- The crate error enum, `error.rs` lines 5-13.  `Key` wraps a
`jsonwebtoken` signing failure, `Convert` a `serde_json` (de)serialization
failure, `Reqwest` a transport failure, `Message` a builder/config failure.
The `Other` variant is only used by tests and is omitted. -/
inductive Error where
  | Key : Error
  | Convert : Error
  | Reqwest : Error
  | ServerErrors : ServerErrors → Error
  | Message : String → Error
deriving Repr, DecidableEq

/-! ## Response decoding (`src/client.rs`, `request` lines 89-103 and
`request_none_body` lines 105-119)

JSON parsing (`serde_json::from_str`) is abstracted as a parameter
`String → Option α`; `none` stands for a parse failure, which the `?`
operator converts to `Error::Convert`. -/

/-- The 2xx branch of `request` (client.rs lines 97-98): parse the body as
the expected success type; a parse failure becomes `Error.Convert`. -/
def decodeSuccessBranch {T : Type} (parse_ok : String → Option T)
    (text : String) : Except Error T :=
  match parse_ok text with
  | some v => Except.ok v
  | none => Except.error Error.Convert

/-- The non-2xx branch of `request` (client.rs lines 100-101): parse the
body as `ServerErrors` and fail with `Error.ServerErrors`; a parse failure
becomes `Error.Convert`. -/
def decodeFailureBranch {T : Type} (parse_err : String → Option ServerErrors)
    (text : String) : Except Error T :=
  match parse_err text with
  | some e => Except.error (Error.ServerErrors e)
  | none => Except.error Error.Convert

/-- Response decoding in `Client::request` (client.rs lines 96-102): branch
on `status / 100 == 2`. -/
def decodeResponse {T : Type} (parse_ok : String → Option T)
    (parse_err : String → Option ServerErrors)
    (status : Nat) (text : String) : Except Error T :=
  if status / 100 = 2 then decodeSuccessBranch parse_ok text
  else decodeFailureBranch parse_err text

/-- Response decoding in `Client::request_none_body` (client.rs lines
112-118): on 2xx the body is discarded entirely. -/
def decodeResponseNoneBody (parse_err : String → Option ServerErrors)
    (status : Nat) (text : String) : Except Error Unit :=
  if status / 100 = 2 then Except.ok ()
  else decodeFailureBranch parse_err text

/-! ## Reference decoder (for the refinement claim)

`DecodedOutcome` and `specDecode` are written from the wording of the spec
(spec §4.4), to be compared with `decodeResponse`, which is translated
from the source. -/

/-- Outcome vocabulary of spec §4.4: success, `DecodeError`, or
`ServerError(structured_error)`. -/
inductive DecodedOutcome (T : Type) where
  | success : T → DecodedOutcome T
  | decodeError : DecodedOutcome T
  | serverError : ServerErrors → DecodedOutcome T
deriving Repr

/-- Reference decoder following the wording of the spec (§4.4): if status
integer-divided by 100 equals 2, parse the body as T (parse failure is a
DecodeError); otherwise parse the body as a structured error (success is
ServerError preserving every entry, failure is a DecodeError). -/
def specDecode {T : Type} (parse_ok : String → Option T)
    (parse_err : String → Option ServerErrors)
    (status : Nat) (text : String) : DecodedOutcome T :=
  if status / 100 = 2 then
    match parse_ok text with
    | some v => DecodedOutcome.success v
    | none => DecodedOutcome.decodeError
  else
    match parse_err text with
    | some e => DecodedOutcome.serverError e
    | none => DecodedOutcome.decodeError

/-- Reference decoder for the body-less variant (§4.4): on 2xx the body is
discarded entirely. -/
def specDecodeEmpty (parse_err : String → Option ServerErrors)
    (status : Nat) (text : String) : DecodedOutcome Unit :=
  if status / 100 = 2 then DecodedOutcome.success ()
  else
    match parse_err text with
    | some e => DecodedOutcome.serverError e
    | none => DecodedOutcome.decodeError

/-- Abstraction map from the `Result` values of the code to the outcome
vocabulary of the spec; `none` for error variants the decoder can never produce. -/
def outcomeOfExcept {T : Type} : Except Error T → Option (DecodedOutcome T)
  | Except.ok v => some (DecodedOutcome.success v)
  | Except.error Error.Convert => some DecodedOutcome.decodeError
  | Except.error (Error.ServerErrors e) => some (DecodedOutcome.serverError e)
  | Except.error _ => none

/-! ## Claim C1 -/

/-- Claim C1: the success/failure branch of the response decoder is
determined solely by the numeric status code: a success value is possible
only when `status / 100 = 2`, a server-reported error only when it is not;
on 2xx the result is the body-independent success branch applied to the
body, otherwise the failure branch; and the boundary statuses 299 and 300
fall on the success and failure side respectively. -/
theorem response_branch_solely_by_status {T : Type}
    (parse_ok : String → Option T) (parse_err : String → Option ServerErrors)
    (status : Nat) (text : String) :
    ((∃ v, decodeResponse parse_ok parse_err status text = Except.ok v) →
      status / 100 = 2)
    ∧ (∀ e, decodeResponse parse_ok parse_err status text =
        Except.error (Error.ServerErrors e) → ¬ status / 100 = 2)
    ∧ (status / 100 = 2 →
        decodeResponse parse_ok parse_err status text = decodeSuccessBranch parse_ok text)
    ∧ (¬ status / 100 = 2 →
        decodeResponse parse_ok parse_err status text = decodeFailureBranch parse_err text)
    ∧ 299 / 100 = 2 ∧ ¬ 300 / 100 = 2 := by
  by_cases h : status / 100 = 2
  · refine ⟨fun _ => h, ?_, fun _ => by simp [decodeResponse, h],
      fun hc => absurd h hc, by norm_num, by norm_num⟩
    intro e he
    simp only [decodeResponse, h, if_true, decodeSuccessBranch] at he
    cases hpt : parse_ok text <;> simp [hpt] at he
  · refine ⟨?_, fun _ _ => h, fun hc => absurd hc h,
      fun _ => by simp [decodeResponse, h], by norm_num, by norm_num⟩
    rintro ⟨v, hv⟩
    simp only [decodeResponse, h, if_false, decodeFailureBranch] at hv
    cases hpe : parse_err text <;> simp [hpe] at hv

/-- A concrete success-type parser used to instantiate decoder theorems. -/
def pT0 : String → Option Nat := fun s => if s = "ok" then some 7 else none

/-- A concrete structured-error parser used to instantiate decoder theorems. -/
def pE0 : String → Option ServerErrors := fun s =>
  if s = "err" then some ⟨[⟨"404", "NOT_FOUND", "x", "y"⟩]⟩ else none

/-- Witness for C1: at status 299 the decoder takes the success branch, at
status 300 the failure branch. -/
theorem response_branch_solely_by_status_witness :
    decodeResponse pT0 pE0 299 "ok" = decodeSuccessBranch pT0 "ok"
    ∧ decodeResponse pT0 pE0 300 "ok" = decodeFailureBranch pE0 "ok" :=
  ⟨(response_branch_solely_by_status pT0 pE0 299 "ok").2.2.1 (by norm_num),
   (response_branch_solely_by_status pT0 pE0 300 "ok").2.2.2.1 (by norm_num)⟩

/-! ## Claim C2 -/

/-- Claim C2: the response decoder refines the reference decoder of the
spec: under the abstraction map, the decoding in `request` equals `specDecode`
(2xx parses the success type with parse failure a DecodeError, non-2xx
parses the structured error list with successful parse a ServerError
preserving every entry in order and parse failure a DecodeError), the
body-less variant equals `specDecodeEmpty` (discarding the body on 2xx),
and the DecodeError outcome is distinct from every ServerError outcome. -/
theorem decode_refines_spec {T : Type}
    (parse_ok : String → Option T) (parse_err : String → Option ServerErrors)
    (status : Nat) (text : String) :
    outcomeOfExcept (decodeResponse parse_ok parse_err status text) =
      some (specDecode parse_ok parse_err status text)
    ∧ outcomeOfExcept (decodeResponseNoneBody parse_err status text) =
      some (specDecodeEmpty parse_err status text)
    ∧ ∀ e : ServerErrors, Error.Convert ≠ Error.ServerErrors e := by
  refine ⟨?_, ?_, fun e h => Error.noConfusion h⟩ <;>
    by_cases h : status / 100 = 2 <;>
      simp only [decodeResponse, decodeResponseNoneBody, specDecode,
        specDecodeEmpty, decodeSuccessBranch, decodeFailureBranch, h,
        if_true, if_false, outcomeOfExcept] <;>
      first
        | rfl
        | (cases parse_ok text <;> simp [outcomeOfExcept])
        | (cases parse_err text <;> simp [outcomeOfExcept])

/-- Witness for C2: the refinement instantiated at status 200 with a
parseable body. -/
theorem decode_refines_spec_witness :
    outcomeOfExcept (decodeResponse pT0 pE0 200 "ok") =
      some (specDecode pT0 pE0 200 "ok") :=
  (decode_refines_spec pT0 pE0 200 "ok").1

/-! ## Token generation and caching (`src/client.rs` lines 19-59)

The JWT signing primitive `jsonwebtoken::encode(header, claims, key)` is
an external collaborator; the per-client header and encoding key are fixed
at construction, so signing is abstracted as one parameter
`sign : Claims → Except Error String` (a failure is the `Error.Key`
variant, converted by `?`). Time (`Utc::now().timestamp() as usize`) is
passed explicitly as `now : Nat`. -/

/-- The JWT claims struct, client.rs lines 25-34. -/
structure Claims where
  iss : String
  iat : Nat
  exp : Nat
  aud : String
deriving Repr, DecidableEq

/-- The cached token cell, client.rs lines 19-23. -/
structure ClientToken where
  exp : Nat
  token : String
deriving Repr, DecidableEq

/-- The claims built by `Client::gen_token` (client.rs lines 39-44):
issued-at backdated 5 minutes, expiration 15 minutes ahead, fixed
audience. -/
def token_claims (iss : String) (now : Nat) : Claims :=
  { iss := iss, iat := now - 60 * 5, exp := now + 60 * 15,
    aud := "appstoreconnect-v1" }

/-- `Client::gen_token`, client.rs lines 37-50: sign the claims and cache
the result with an expiry 10 minutes ahead (shorter than the 15-minute
expiration of the signature itself). -/
def gen_token (iss : String) (sign : Claims → Except Error String)
    (now : Nat) : Except Error ClientToken :=
  match sign (token_claims iss now) with
  | Except.error e => Except.error e
  | Except.ok token => Except.ok { exp := now + 60 * 10, token := token }

/-- The critical section of `Client::load_token`, client.rs lines 52-59,
as a transition on the mutex-guarded `ClientToken` cell: if `now > exp`,
regenerate and replace the cell before returning the held token; on a
regeneration failure the `?` operator returns early and the cell is left
unchanged. Returns the new cell contents together with the result. -/
def load_token (iss : String) (sign : Claims → Except Error String)
    (now : Nat) (st : ClientToken) : ClientToken × Except Error String :=
  if now > st.exp then
    match gen_token iss sign now with
    | Except.error e => (st, Except.error e)
    | Except.ok t => (t, Except.ok t.token)
  else
    (st, Except.ok st.token)

/-- `n` callers of `load_token`, serialized by the `tokio::sync::Mutex`
(client.rs line 16; the lock covers the whole check-and-regenerate
sequence), all executing at the same instant `now`. Returns the final
cell contents, the list of per-caller results, and the number of
`gen_token` invocations (one per execution of the `now > exp` branch). -/
def run_serialized_load_tokens (iss : String)
    (sign : Claims → Except Error String) (now : Nat) :
    Nat → ClientToken → ClientToken × List (Except Error String) × Nat
  | 0, st => (st, [], 0)
  | Nat.succ n, st =>
    let r := load_token iss sign now st
    let invoked : Nat := if now > st.exp then 1 else 0
    let rest := run_serialized_load_tokens iss sign now n r.1
    (rest.1, r.2 :: rest.2.1, invoked + rest.2.2)

/-- An unexpired cell is returned unchanged with no generator invocation,
for any number of serialized callers. -/
lemma run_serialized_stable (iss : String)
    (sign : Claims → Except Error String) (now : Nat) (st : ClientToken)
    (h : ¬ now > st.exp) (n : Nat) :
    run_serialized_load_tokens iss sign now n st =
      (st, List.replicate n (Except.ok st.token), 0) := by
  induction n with
  | zero => simp [run_serialized_load_tokens]
  | succ n ih =>
    simp [run_serialized_load_tokens, load_token, h, ih, List.replicate]

/-! ## Claim C4 -/

/-- Claim C4: for `n ≥ 1` callers serialized by the token-cache lock, all
observing the same expired cell at the same instant `now` and with the
signing capability succeeding with string `s`, the token generator is
invoked exactly once, every caller receives the same newly generated
string `s`, and the cell ends holding the new token. -/
theorem concurrent_expiry_single_regeneration
    (iss : String) (sign : Claims → Except Error String) (now : Nat)
    (st : ClientToken) (n : Nat) (s : String)
    (hexp : now > st.exp) (hsign : sign (token_claims iss now) = Except.ok s)
    (hn : 0 < n) :
    (run_serialized_load_tokens iss sign now n st).2.2 = 1
    ∧ (run_serialized_load_tokens iss sign now n st).2.1 =
        List.replicate n (Except.ok s)
    ∧ (run_serialized_load_tokens iss sign now n st).1 =
        { exp := now + 60 * 10, token := s } := by
  obtain ⟨m, rfl⟩ : ∃ m, n = m + 1 := ⟨n - 1, (Nat.succ_pred_eq_of_pos hn).symm⟩
  set t : ClientToken := { exp := now + 60 * 10, token := s } with ht
  have hgen : gen_token iss sign now = Except.ok t := by
    simp [gen_token, hsign, ht]
  have hfresh : ¬ now > t.exp := by
    show ¬ now > now + 60 * 10
    omega
  have hstable := run_serialized_stable iss sign now t hfresh m
  have htok : t.token = s := rfl
  simp [run_serialized_load_tokens, load_token, hexp, hgen, hstable, htok,
    List.replicate_succ]

/-- A concrete signing capability that always succeeds. -/
def sampleSign : Claims → Except Error String := fun _ => Except.ok "signed"

/-- Witness for C4: three serialized callers at `now = 1000` over a cell
expired at 5 trigger exactly one generation and all receive "signed". -/
theorem concurrent_expiry_single_regeneration_witness :
    (run_serialized_load_tokens "i" sampleSign 1000 3 ⟨5, "old"⟩).2.2 = 1
    ∧ (run_serialized_load_tokens "i" sampleSign 1000 3 ⟨5, "old"⟩).2.1 =
        List.replicate 3 (Except.ok "signed")
    ∧ (run_serialized_load_tokens "i" sampleSign 1000 3 ⟨5, "old"⟩).1 =
        { exp := 1000 + 60 * 10, token := "signed" } :=
  concurrent_expiry_single_regeneration "i" sampleSign 1000 ⟨5, "old"⟩ 3
    "signed" (by norm_num) rfl (by norm_num)

/-! ## Claim C5 -/

/-- Counterexample to C5 as stated: at the boundary `now = expires_at`
(both 1000), `load_token` hands out the held token even though its
recorded expiry does not strictly exceed `now`. -/
theorem handout_strict_expiry_counterexample :
    (load_token "i" sampleSign 1000 ⟨1000, "t"⟩).2 = Except.ok "t"
    ∧ (load_token "i" sampleSign 1000 ⟨1000, "t"⟩).1.exp = 1000
    ∧ ¬ 1000 < (load_token "i" sampleSign 1000 ⟨1000, "t"⟩).1.exp := by
  refine ⟨?_, ?_, ?_⟩ <;> simp [load_token, gen_token]

/-- Claim C5 amended: whenever `load_token` hands out a token string, the
`expires_at` of the held token is at least `now` (never strictly in the
past), and the string handed out is the signed value of the held token; at the
boundary `now = expires_at` equality occurs. -/
theorem handout_expiry_not_past (iss : String)
    (sign : Claims → Except Error String) (now : Nat) (st st' : ClientToken)
    (tok : String) (h : load_token iss sign now st = (st', Except.ok tok)) :
    now ≤ st'.exp ∧ tok = st'.token := by
  by_cases hexp : now > st.exp
  · cases hsign : sign (token_claims iss now) with
    | error e => simp [load_token, gen_token, hexp, hsign] at h
    | ok s =>
      have hrun : load_token iss sign now st =
          ({ exp := now + 60 * 10, token := s }, Except.ok s) := by
        simp [load_token, gen_token, hexp, hsign]
      rw [hrun] at h
      injection h with h1 h2
      injection h2 with h2
      subst h1
      exact ⟨by show now ≤ now + 60 * 10; omega, h2.symm⟩
  · have hrun : load_token iss sign now st = (st, Except.ok st.token) := by
      simp [load_token, hexp]
    rw [hrun] at h
    injection h with h1 h2
    injection h2 with h2
    subst h1
    exact ⟨by omega, h2.symm⟩

/-- Witness for the amended C5: a cache hit at `now = 5` on a cell expiring
at 10 hands out "t" with expiry 10 ≥ 5. -/
theorem handout_expiry_not_past_witness :
    (5 : Nat) ≤ (⟨10, "t"⟩ : ClientToken).exp
    ∧ "t" = (⟨10, "t"⟩ : ClientToken).token :=
  handout_expiry_not_past "i" sampleSign 5 ⟨10, "t"⟩ ⟨10, "t"⟩ "t" (by
    simp [load_token, gen_token])

/-! ## Claim C6 -/

/-- Claim C6: the only cache transitions are cache-hit (cell unchanged,
held token returned) and expiry-triggered replacement (cell replaced by
the newly generated token, whose string is returned); if regeneration
fails the error is surfaced and the previously held token remains in place
unchanged. -/
theorem load_token_transitions (iss : String)
    (sign : Claims → Except Error String) (now : Nat) (st : ClientToken) :
    (¬ now > st.exp →
      load_token iss sign now st = (st, Except.ok st.token))
    ∧ (now > st.exp →
      (∀ t, gen_token iss sign now = Except.ok t →
        load_token iss sign now st = (t, Except.ok t.token))
      ∧ (∀ e, gen_token iss sign now = Except.error e →
        load_token iss sign now st = (st, Except.error e))) := by
  refine ⟨fun h => by simp [load_token, h], fun h => ⟨?_, ?_⟩⟩
  · intro t ht; simp [load_token, h, ht]
  · intro e he; simp [load_token, h, he]

/-- A concrete signing capability that always fails. -/
def failSign : Claims → Except Error String := fun _ => Except.error Error.Key

/-- Witness for C6: with a failing generator and an expired cell at
`now = 1000`, the error is surfaced and the old cell is unchanged. -/
theorem load_token_transitions_witness :
    load_token "i" failSign 1000 ⟨5, "old"⟩ = (⟨5, "old"⟩, Except.error Error.Key) :=
  ((load_token_transitions "i" failSign 1000 ⟨5, "old"⟩).2 (by norm_num)).2
    Error.Key rfl

/-! ## Claim C7 -/

/-- Claim C7: the generated claims carry issued-at equal to `now` minus the
5-minute backdating margin, expiration `now` plus the 15-minute validity
window and the fixed audience string, and the cached `expires_at` of a
successfully generated token is `now` plus the shorter 10-minute window,
strictly before the expiration of the claims themselves. -/
theorem gen_token_claims_spec (iss : String)
    (sign : Claims → Except Error String) (now : Nat) (hnow : 60 * 5 ≤ now) :
    (token_claims iss now).iat + 60 * 5 = now
    ∧ (token_claims iss now).exp = now + 60 * 15
    ∧ (token_claims iss now).aud = "appstoreconnect-v1"
    ∧ (token_claims iss now).iss = iss
    ∧ ∀ t, gen_token iss sign now = Except.ok t →
        t.exp = now + 60 * 10 ∧ t.exp < (token_claims iss now).exp := by
  refine ⟨?_, rfl, rfl, rfl, ?_⟩
  · show now - 60 * 5 + 60 * 5 = now
    omega
  · intro t ht
    cases hsign : sign (token_claims iss now) with
    | error e => simp [gen_token, hsign] at ht
    | ok s =>
      simp only [gen_token, hsign] at ht
      cases ht
      refine ⟨rfl, ?_⟩
      show now + 60 * 10 < now + 60 * 15
      omega

/-- Witness for C7 at `now = 1000`: iat 700, claims exp 1900, cached exp
1600 strictly below 1900. -/
theorem gen_token_claims_spec_witness :
    (token_claims "i" 1000).iat + 60 * 5 = 1000
    ∧ (token_claims "i" 1000).exp = 1000 + 60 * 15
    ∧ (token_claims "i" 1000).aud = "appstoreconnect-v1"
    ∧ (token_claims "i" 1000).iss = "i"
    ∧ ∀ t, gen_token "i" sampleSign 1000 = Except.ok t →
        t.exp = 1000 + 60 * 10 ∧ t.exp < (token_claims "i" 1000).exp :=
  gen_token_claims_spec "i" sampleSign 1000 (by norm_num)

/-! ## Request construction (`src/client.rs`, `request_raw` lines 61-87)

The outbound request assembled by `request_raw` before `send()`: the
loaded token is attached under the `Authorization` header, the query pairs
are attached when present, and a JSON body (already serialized by
`serde_json::to_string`) additionally sets the `Content-Type` header. -/

/-- The HTTP methods used by the client. -/
inductive Method where
  | GET
  | POST
  | PATCH
  | DELETE
deriving Repr, DecidableEq

/-- The assembled outbound request. -/
structure HttpRequest where
  method : Method
  url : String
  headers : List (String × String)
  query : List (String × String)
  body : Option String
deriving Repr, DecidableEq

/-- Request assembly in `request_raw`, client.rs lines 68-82: the header
list starts with `("Authorization", token)` where `token` is the string
returned by `load_token` (line 71), the query is attached when present
(lines 72-75), and a body adds `("Content-Type", "application/json")` and
the serialized JSON text (lines 76-82). -/
def request_raw_build (method : Method) (url : String) (token : String)
    (query : Option (List (String × String))) (body : Option String) :
    HttpRequest :=
  let headers := [("Authorization", token)]
  match body with
  | none =>
    { method := method, url := url, headers := headers,
      query := query.getD [], body := none }
  | some b =>
    { method := method, url := url,
      headers := headers ++ [("Content-Type", "application/json")],
      query := query.getD [], body := some b }

/-! ## Claim C3 -/

/-- Claim C3 fails on the code: the `Authorization` header value attached
by `request_raw` is the bare signed token, not the string "Bearer "
followed by it. For every request the first header is
`("Authorization", token)`, a bare token is never equal to "Bearer "
prepended to it, and at the concrete token "tok" the emitted value is
"tok" rather than "Bearer tok". -/
theorem authorization_header_bare_token :
    (∀ (m : Method) (u tok : String) (q : Option (List (String × String)))
       (b : Option String),
       (request_raw_build m u tok q b).headers.head? = some ("Authorization", tok))
    ∧ (∀ tok : String, tok ≠ "Bearer " ++ tok)
    ∧ (request_raw_build Method.GET "https://api.appstoreconnect.apple.com/v1/apps"
        "tok" none none).headers = [("Authorization", "tok")]
    ∧ ("tok" : String) ≠ "Bearer " ++ "tok" := by
  refine ⟨?_, ?_, rfl, by decide⟩
  · intro m u tok q b
    cases b <;> rfl
  · intro tok h
    have hlen : tok.length = ("Bearer " ++ tok).length := congrArg String.length h
    rw [String.length_append] at hlen
    have h7 : ("Bearer " : String).length = 7 := rfl
    omega

/-! ## Client construction (`src/client.rs`, `ClientBuilder` lines 393-457) -/

/-- The builder, client.rs lines 393-398: three optional fields, the
private key as raw DER bytes. -/
structure ClientBuilder where
  iss : Option String := none
  kid : Option String := none
  ec_der : Option (List Nat) := none
deriving Repr, DecidableEq

/-- The constructed client state relevant to the embedding: the identity
fields and the eagerly generated token held in the mutex cell
(client.rs lines 448-455). The reqwest agent, header and encoding key are
absorbed into the abstract signing capability. -/
structure ClientModel where
  iss : String
  kid : String
  ec_der : List Nat
  token : ClientToken
deriving Repr, DecidableEq

/-- `ClientBuilder::build`, client.rs lines 428-456: fail with a message
error when `kid` (line 433), `iss` (line 439) or `ec_der` (line 444) is
absent, in that order; otherwise eagerly generate the first token
(line 448), propagating its failure, and return the populated client. -/
def ClientBuilder.build (b : ClientBuilder)
    (sign : Claims → Except Error String) (now : Nat) :
    Except Error ClientModel :=
  match b.kid with
  | none => Except.error (Error.Message "kid must be set")
  | some kid =>
    match b.iss with
    | none => Except.error (Error.Message "iss must be set")
    | some iss =>
      match b.ec_der with
      | none => Except.error (Error.Message "ec_der must be set")
      | some ec_der =>
        match gen_token iss sign now with
        | Except.error e => Except.error e
        | Except.ok t =>
          Except.ok { iss := iss, kid := kid, ec_der := ec_der, token := t }

/-! ## Claim C9 -/

/-- Claim C9: constructing a client with any of issuer, key-id or key
material absent fails at construction time with a configuration (message)
error, before any request exists; with all three present construction
eagerly generates the first token, failing exactly when that generation
fails; and a successfully built client always holds the token produced by
a successful generation. -/
theorem builder_build_spec (b : ClientBuilder)
    (sign : Claims → Except Error String) (now : Nat) :
    (b.iss = none ∨ b.kid = none ∨ b.ec_der = none →
      ∃ m, b.build sign now = Except.error (Error.Message m))
    ∧ (∀ iss kid ec_der, b.iss = some iss → b.kid = some kid →
        b.ec_der = some ec_der →
        (∀ e, gen_token iss sign now = Except.error e →
          b.build sign now = Except.error e)
        ∧ (∀ t, gen_token iss sign now = Except.ok t →
          b.build sign now = Except.ok
            { iss := iss, kid := kid, ec_der := ec_der, token := t }))
    ∧ (∀ c, b.build sign now = Except.ok c →
        gen_token c.iss sign now = Except.ok c.token) := by
  obtain ⟨iss, kid, ec_der⟩ := b
  refine ⟨?_, ?_, ?_⟩
  · rintro (rfl | rfl | rfl)
    · cases kid with
      | none => exact ⟨"kid must be set", rfl⟩
      | some k => exact ⟨"iss must be set", rfl⟩
    · exact ⟨"kid must be set", rfl⟩
    · cases kid with
      | none => exact ⟨"kid must be set", rfl⟩
      | some k =>
        cases iss with
        | none => exact ⟨"iss must be set", rfl⟩
        | some i => exact ⟨"ec_der must be set", rfl⟩
  · rintro i k d rfl rfl rfl
    constructor
    · intro e he
      simp [ClientBuilder.build, he]
    · intro t ht
      simp [ClientBuilder.build, ht]
  · intro c hc
    cases kid with
    | none => simp [ClientBuilder.build] at hc
    | some k =>
      cases iss with
      | none => simp [ClientBuilder.build] at hc
      | some i =>
        cases ec_der with
        | none => simp [ClientBuilder.build] at hc
        | some d =>
          cases ht : gen_token i sign now with
          | error e => simp [ClientBuilder.build, ht] at hc
          | ok t =>
            simp only [ClientBuilder.build, ht] at hc
            cases hc
            exact ht

/-- Witness for C9 (spec §8 scenario): issuer "abc" set, key-id missing,
so construction fails with a configuration message error before any
request exists. -/
theorem builder_build_spec_witness :
    ∃ m, ClientBuilder.build { iss := some "abc" } sampleSign 0 =
      Except.error (Error.Message m) :=
  (builder_build_spec { iss := some "abc" } sampleSign 0).1
    (Or.inr (Or.inl rfl))

/-! ## Query parameter enums (`src/entities.rs`, `enum_str!` tables)

The fixed wire-string mapping of each closed enum (`From<Enum> for String`,
generated by the `enum_str!` macro) is rendered as a `toWire` function. -/

/-- entities.rs lines 852-855. -/
inductive BundleIdPlatform where
  | Ios
  | MacOS
deriving Repr, DecidableEq

def BundleIdPlatform.toWire : BundleIdPlatform → String
  | .Ios => "IOS"
  | .MacOS => "MAC_OS"

/-- entities.rs lines 445-456. -/
inductive BundleIdSort where
  | Id
  | IdDesc
  | Identifier
  | IdentifierDesc
  | Name
  | NameDesc
  | Platform
  | PlatformDesc
  | SeedIdType
  | SeedIdDesc
deriving Repr, DecidableEq

def BundleIdSort.toWire : BundleIdSort → String
  | .Id => "id"
  | .IdDesc => "-id"
  | .Identifier => "identifier"
  | .IdentifierDesc => "-identifier"
  | .Name => "name"
  | .NameDesc => "-name"
  | .Platform => "platform"
  | .PlatformDesc => "-platform"
  | .SeedIdType => "seedId"
  | .SeedIdDesc => "-seedId"

/-- entities.rs lines 514-523. -/
inductive CertificateSort where
  | Id
  | IdDesc
  | CertificateType
  | CertificateTypeDesc
  | DisplayName
  | DisplayNameDesc
  | SerialNumber
  | SerialNumberDesc
deriving Repr, DecidableEq

def CertificateSort.toWire : CertificateSort → String
  | .Id => "id"
  | .IdDesc => "-id"
  | .CertificateType => "certificateType"
  | .CertificateTypeDesc => "-certificateType"
  | .DisplayName => "displayName"
  | .DisplayNameDesc => "-displayName"
  | .SerialNumber => "serialNumber"
  | .SerialNumberDesc => "-serialNumber"

/-- entities.rs lines 570-582. -/
inductive CertificateType where
  | IosDevelopment
  | IosDistribution
  | MacAppDistribution
  | MacInstallerDistribution
  | MacAppDevelopment
  | DeveloperIdKext
  | DeveloperIdApplication
  | Development
  | Distribution
  | PassTypeId
  | PassTypeIdWithNfc
deriving Repr, DecidableEq

def CertificateType.toWire : CertificateType → String
  | .IosDevelopment => "IOS_DEVELOPMENT"
  | .IosDistribution => "IOS_DISTRIBUTION"
  | .MacAppDistribution => "MAC_APP_DISTRIBUTION"
  | .MacInstallerDistribution => "MAC_INSTALLER_DISTRIBUTION"
  | .MacAppDevelopment => "MAC_APP_DEVELOPMENT"
  | .DeveloperIdKext => "DEVELOPER_ID_KEXT"
  | .DeveloperIdApplication => "DEVELOPER_ID_APPLICATION"
  | .Development => "DEVELOPMENT"
  | .Distribution => "DISTRIBUTION"
  | .PassTypeId => "PASS_TYPE_ID"
  | .PassTypeIdWithNfc => "PASS_TYPE_ID_WITH_NFC"

/-- entities.rs lines 602-611. -/
inductive ProfileSort where
  | Id
  | IdDesc
  | Name
  | NameDesc
  | ProfileState
  | ProfileStateDesc
  | ProfileType
  | ProfileTypeDesc
deriving Repr, DecidableEq

def ProfileSort.toWire : ProfileSort → String
  | .Id => "id"
  | .IdDesc => "-id"
  | .Name => "name"
  | .NameDesc => "-name"
  | .ProfileState => "profileState"
  | .ProfileStateDesc => "-profileState"
  | .ProfileType => "profileType"
  | .ProfileTypeDesc => "-profileType"

/-- entities.rs lines 640-643. -/
inductive ProfileState where
  | INVALID
  | ACTIVE
deriving Repr, DecidableEq

def ProfileState.toWire : ProfileState → String
  | .INVALID => "INVALID"
  | .ACTIVE => "ACTIVE"

/-- entities.rs lines 674-690. -/
inductive ProfileType where
  | IosAppDevelopment
  | IosAppStore
  | IosAppAdhoc
  | IosAppInhouse
  | MacAppDevelopment
  | MacAppStore
  | MacAppDirect
  | TvosAppDevelopment
  | TvosAppStore
  | TvosAppAdhoc
  | TvosAppInhouse
  | MacCatalystAppDevelopment
  | MacCatalystAppStore
  | MacCatalystAppDirect
deriving Repr, DecidableEq

def ProfileType.toWire : ProfileType → String
  | .IosAppDevelopment => "IOS_APP_DEVELOPMENT"
  | .IosAppStore => "IOS_APP_STORE"
  | .IosAppAdhoc => "IOS_APP_ADHOC"
  | .IosAppInhouse => "IOS_APP_INHOUSE"
  | .MacAppDevelopment => "MAC_APP_DEVELOPMENT"
  | .MacAppStore => "MAC_APP_STORE"
  | .MacAppDirect => "MAC_APP_DIRECT"
  | .TvosAppDevelopment => "TVOS_APP_DEVELOPMENT"
  | .TvosAppStore => "TVOS_APP_STORE"
  | .TvosAppAdhoc => "TVOS_APP_ADHOC"
  | .TvosAppInhouse => "TVOS_APP_INHOUSE"
  | .MacCatalystAppDevelopment => "MAC_CATALYST_APP_DEVELOPMENT"
  | .MacCatalystAppStore => "MAC_CATALYST_APP_STORE"
  | .MacCatalystAppDirect => "MAC_CATALYST_APP_DIRECT"

/-- entities.rs lines 775-786. -/
inductive DeviceSort where
  | Id
  | IdDesc
  | Name
  | NameDesc
  | Platform
  | PlatformDesc
  | Status
  | StatusDesc
  | Udid
  | UdidDesc
deriving Repr, DecidableEq

def DeviceSort.toWire : DeviceSort → String
  | .Id => "id"
  | .IdDesc => "-id"
  | .Name => "name"
  | .NameDesc => "-name"
  | .Platform => "platform"
  | .PlatformDesc => "-platform"
  | .Status => "status"
  | .StatusDesc => "-status"
  | .Udid => "udid"
  | .UdidDesc => "-udid"

/-- entities.rs lines 829-834. -/
inductive DeviceStatus where
  | Enabled
  | Disabled
  | Processing
  | Ineligible
deriving Repr, DecidableEq

def DeviceStatus.toWire : DeviceStatus → String
  | .Enabled => "ENABLED"
  | .Disabled => "DISABLED"
  | .Processing => "PROCESSING"
  | .Ineligible => "INELIGIBLE"

/-- entities.rs lines 876-881. -/
inductive UserSort where
  | LastName
  | LastNameDesc
  | Username
  | UsernameDesc
deriving Repr, DecidableEq

def UserSort.toWire : UserSort → String
  | .LastName => "lastName"
  | .LastNameDesc => "-lastName"
  | .Username => "username"
  | .UsernameDesc => "-username"

/-- entities.rs lines 909-923. -/
inductive Role where
  | Admin
  | Finance
  | AccountHolder
  | Sales
  | Marketing
  | AppManager
  | Developer
  | AccessToReports
  | CustomerSupport
  | ImageManager
  | CreateApps
  | CloudManagedDeveloperId
  | CloudManagedAppDistribution
deriving Repr, DecidableEq

def Role.toWire : Role → String
  | .Admin => "ADMIN"
  | .Finance => "FINANCE"
  | .AccountHolder => "ACCOUNT_HOLDER"
  | .Sales => "SALES"
  | .Marketing => "MARKETING"
  | .AppManager => "APP_MANAGER"
  | .Developer => "DEVELOPER"
  | .AccessToReports => "ACCESS_TO_REPORTS"
  | .CustomerSupport => "CUSTOMER_SUPPORT"
  | .ImageManager => "IMAGE_MANAGER"
  | .CreateApps => "CREATE_APPS"
  | .CloudManagedDeveloperId => "CLOUD_MANAGED_DEVELOPER_ID"
  | .CloudManagedAppDistribution => "CLOUD_MANAGED_APP_DISTRIBUTION"

/-! ## Query encoding (`src/entities.rs`, `query_params!` lines 76-100)

The generated `queries()` method walks the fields in declared order and
pushes `(key, rendered value)` for each present field: a `String` field is
pushed as is, an `i64` via `format!` (decimal), an enum via its wire
mapping (`format_params!`, lines 64-74). One present field therefore
contributes the singleton `optPush`, an absent field nothing, and the
result is the concatenation in declared order. -/

/-- The contribution of one optional field: `if let Some(v) = field
{ result.push((key, v)) }` with the value already rendered to a string. -/
def optPush (key : String) : Option String → List (String × String)
  | some v => [(key, v)]
  | none => []

/-- Turns one (key, rendered optional value) table row into an emitted
pair, dropping absent rows. -/
def pairUp (p : String × Option String) : Option (String × String) :=
  p.2.map (fun v => (p.1, v))

lemma filterMap_pairUp_cons (k : String) (ov : Option String)
    (rest : List (String × Option String)) :
    List.filterMap pairUp ((k, ov) :: rest) =
      optPush k ov ++ List.filterMap pairUp rest := by
  cases ov <;> simp [pairUp, optPush]

lemma filterMap_pairUp_keys_sublist (t : List (String × Option String)) :
    ((List.filterMap pairUp t).map Prod.fst).Sublist (t.map Prod.fst) := by
  induction t with
  | nil => simp
  | cons p rest ih =>
    obtain ⟨k, ov⟩ := p
    cases ov with
    | none => simpa [filterMap_pairUp_cons, optPush] using ih.cons k
    | some w => simpa [filterMap_pairUp_cons, optPush] using ih.cons₂ k

lemma mem_keys_of_mem_filterMap {t : List (String × Option String)}
    {k v : String} (h : (k, v) ∈ List.filterMap pairUp t) :
    k ∈ t.map Prod.fst := by
  obtain ⟨⟨k1, ov⟩, hmem, hp⟩ := List.mem_filterMap.mp h
  cases ov with
  | none => simp [pairUp] at hp
  | some w =>
    simp only [pairUp, Option.map_some, Option.some.injEq, Prod.mk.injEq] at hp
    obtain ⟨rfl, rfl⟩ := hp
    exact List.mem_map_of_mem Prod.fst hmem

/-! ### BundleIdQuery (entities.rs lines 428-443)

The Rust field `include` is a Lean keyword, rendered as `include_field`;
its wire key "include" is unchanged. -/

structure BundleIdQuery where
  fields_bundle_ids : Option String := none
  fields_profiles : Option String := none
  filter_id : Option String := none
  filter_identifier : Option String := none
  filter_name : Option String := none
  filter_platform : Option BundleIdPlatform := none
  filter_seed_id : Option String := none
  include_field : Option String := none
  limit : Option Int := none
  limit_profiles : Option Int := none
  sort : Option BundleIdSort := none
  fields_bundle_id_capabilities : Option String := none
  limit_bundle_id_capabilities : Option Int := none
  fields_apps : Option String := none
deriving Repr, DecidableEq

def BundleIdQuery.queries (q : BundleIdQuery) : List (String × String) :=
  optPush "fields[bundleIds]" q.fields_bundle_ids
  ++ optPush "fields[profiles]" q.fields_profiles
  ++ optPush "filter[id]" q.filter_id
  ++ optPush "filter[identifier]" q.filter_identifier
  ++ optPush "filter[name]" q.filter_name
  ++ optPush "filter[platform]" (q.filter_platform.map BundleIdPlatform.toWire)
  ++ optPush "filter[seedId]" q.filter_seed_id
  ++ optPush "include" q.include_field
  ++ optPush "limit" (q.limit.map toString)
  ++ optPush "limit[profiles]" (q.limit_profiles.map toString)
  ++ optPush "sort" (q.sort.map BundleIdSort.toWire)
  ++ optPush "fields[bundleIdCapabilities]" q.fields_bundle_id_capabilities
  ++ optPush "limit[bundleIdCapabilities]" (q.limit_bundle_id_capabilities.map toString)
  ++ optPush "fields[apps]" q.fields_apps

/-- The (key, rendered optional value) rows of `BundleIdQuery` in declared
field order. -/
def bundleIdQueryTable (q : BundleIdQuery) : List (String × Option String) :=
  [("fields[bundleIds]", q.fields_bundle_ids),
   ("fields[profiles]", q.fields_profiles),
   ("filter[id]", q.filter_id),
   ("filter[identifier]", q.filter_identifier),
   ("filter[name]", q.filter_name),
   ("filter[platform]", q.filter_platform.map BundleIdPlatform.toWire),
   ("filter[seedId]", q.filter_seed_id),
   ("include", q.include_field),
   ("limit", q.limit.map toString),
   ("limit[profiles]", q.limit_profiles.map toString),
   ("sort", q.sort.map BundleIdSort.toWire),
   ("fields[bundleIdCapabilities]", q.fields_bundle_id_capabilities),
   ("limit[bundleIdCapabilities]", q.limit_bundle_id_capabilities.map toString),
   ("fields[apps]", q.fields_apps)]

/-- The declared wire keys of `BundleIdQuery`, in declared field order. -/
def bundleIdQueryKeys : List String :=
  ["fields[bundleIds]", "fields[profiles]", "filter[id]",
   "filter[identifier]", "filter[name]", "filter[platform]",
   "filter[seedId]", "include", "limit", "limit[profiles]", "sort",
   "fields[bundleIdCapabilities]", "limit[bundleIdCapabilities]",
   "fields[apps]"]

lemma bundleIdQuery_queries_eq_table (q : BundleIdQuery) :
    q.queries = List.filterMap pairUp (bundleIdQueryTable q) := by
  simp [BundleIdQuery.queries, bundleIdQueryTable, filterMap_pairUp_cons]

lemma bundleIdQueryTable_keys (q : BundleIdQuery) :
    (bundleIdQueryTable q).map Prod.fst = bundleIdQueryKeys := rfl

/-! ### CertificateQuery (entities.rs lines 503-512) -/

structure CertificateQuery where
  fields_certificates : Option String := none
  filter_id : Option String := none
  filter_serial_number : Option String := none
  limit : Option Int := none
  sort : Option CertificateSort := none
  filter_certificate_type : Option CertificateType := none
  filter_display_name : Option String := none
deriving Repr, DecidableEq

def CertificateQuery.queries (q : CertificateQuery) : List (String × String) :=
  optPush "fields[certificates]" q.fields_certificates
  ++ optPush "filter[id]" q.filter_id
  ++ optPush "filter[serialNumber]" q.filter_serial_number
  ++ optPush "limit" (q.limit.map toString)
  ++ optPush "sort" (q.sort.map CertificateSort.toWire)
  ++ optPush "filter[certificateType]" (q.filter_certificate_type.map CertificateType.toWire)
  ++ optPush "filter[displayName]" q.filter_display_name

def certificateQueryTable (q : CertificateQuery) : List (String × Option String) :=
  [("fields[certificates]", q.fields_certificates),
   ("filter[id]", q.filter_id),
   ("filter[serialNumber]", q.filter_serial_number),
   ("limit", q.limit.map toString),
   ("sort", q.sort.map CertificateSort.toWire),
   ("filter[certificateType]", q.filter_certificate_type.map CertificateType.toWire),
   ("filter[displayName]", q.filter_display_name)]

def certificateQueryKeys : List String :=
  ["fields[certificates]", "filter[id]", "filter[serialNumber]", "limit",
   "sort", "filter[certificateType]", "filter[displayName]"]

lemma certificateQuery_queries_eq_table (q : CertificateQuery) :
    q.queries = List.filterMap pairUp (certificateQueryTable q) := by
  simp [CertificateQuery.queries, certificateQueryTable, filterMap_pairUp_cons]

lemma certificateQueryTable_keys (q : CertificateQuery) :
    (certificateQueryTable q).map Prod.fst = certificateQueryKeys := rfl

/-! ### ProfileQuery (entities.rs lines 586-600)

Note the leading space in the declared key of `filter_profile_state`,
entities.rs line 598: `" filter[profileState]"`. -/

structure ProfileQuery where
  fields_certificates : Option String := none
  fields_devices : Option String := none
  filter_profiles : Option String := none
  filter_id : Option String := none
  filter_name : Option String := none
  include_field : Option String := none
  limit : Option Int := none
  limit_certificates : Option Int := none
  limit_devices : Option Int := none
  sort : Option ProfileSort := none
  fields_bundle_ids : Option String := none
  filter_profile_state : Option ProfileState := none
  filter_profile_type : Option ProfileType := none
deriving Repr, DecidableEq

def ProfileQuery.queries (q : ProfileQuery) : List (String × String) :=
  optPush "fields[certificates]" q.fields_certificates
  ++ optPush "fields[devices]" q.fields_devices
  ++ optPush "filter[profiles]" q.filter_profiles
  ++ optPush "filter[id]" q.filter_id
  ++ optPush "filter[name]" q.filter_name
  ++ optPush "include" q.include_field
  ++ optPush "limit" (q.limit.map toString)
  ++ optPush "limit[certificates]" (q.limit_certificates.map toString)
  ++ optPush "limit[devices]" (q.limit_devices.map toString)
  ++ optPush "sort" (q.sort.map ProfileSort.toWire)
  ++ optPush "fields[bundleIds]" q.fields_bundle_ids
  ++ optPush " filter[profileState]" (q.filter_profile_state.map ProfileState.toWire)
  ++ optPush "filter[profileType]" (q.filter_profile_type.map ProfileType.toWire)

def profileQueryTable (q : ProfileQuery) : List (String × Option String) :=
  [("fields[certificates]", q.fields_certificates),
   ("fields[devices]", q.fields_devices),
   ("filter[profiles]", q.filter_profiles),
   ("filter[id]", q.filter_id),
   ("filter[name]", q.filter_name),
   ("include", q.include_field),
   ("limit", q.limit.map toString),
   ("limit[certificates]", q.limit_certificates.map toString),
   ("limit[devices]", q.limit_devices.map toString),
   ("sort", q.sort.map ProfileSort.toWire),
   ("fields[bundleIds]", q.fields_bundle_ids),
   (" filter[profileState]", q.filter_profile_state.map ProfileState.toWire),
   ("filter[profileType]", q.filter_profile_type.map ProfileType.toWire)]

def profileQueryKeys : List String :=
  ["fields[certificates]", "fields[devices]", "filter[profiles]",
   "filter[id]", "filter[name]", "include", "limit", "limit[certificates]",
   "limit[devices]", "sort", "fields[bundleIds]", " filter[profileState]",
   "filter[profileType]"]

lemma profileQuery_queries_eq_table (q : ProfileQuery) :
    q.queries = List.filterMap pairUp (profileQueryTable q) := by
  simp [ProfileQuery.queries, profileQueryTable, filterMap_pairUp_cons]

lemma profileQueryTable_keys (q : ProfileQuery) :
    (profileQueryTable q).map Prod.fst = profileQueryKeys := rfl

/-! ### DeviceQuery (entities.rs lines 764-773) -/

structure DeviceQuery where
  fields_devices : Option String := none
  filter_id : Option String := none
  filter_name : Option String := none
  filter_platform : Option BundleIdPlatform := none
  filter_status : Option DeviceStatus := none
  filter_udid : Option String := none
  limit : Option Int := none
  sort : Option DeviceSort := none
deriving Repr, DecidableEq

def DeviceQuery.queries (q : DeviceQuery) : List (String × String) :=
  optPush "fields[devices]" q.fields_devices
  ++ optPush "filter[id]" q.filter_id
  ++ optPush "filter[name]" q.filter_name
  ++ optPush "filter[platform]" (q.filter_platform.map BundleIdPlatform.toWire)
  ++ optPush "filter[status]" (q.filter_status.map DeviceStatus.toWire)
  ++ optPush "filter[udid]" q.filter_udid
  ++ optPush "limit" (q.limit.map toString)
  ++ optPush "sort" (q.sort.map DeviceSort.toWire)

def deviceQueryTable (q : DeviceQuery) : List (String × Option String) :=
  [("fields[devices]", q.fields_devices),
   ("filter[id]", q.filter_id),
   ("filter[name]", q.filter_name),
   ("filter[platform]", q.filter_platform.map BundleIdPlatform.toWire),
   ("filter[status]", q.filter_status.map DeviceStatus.toWire),
   ("filter[udid]", q.filter_udid),
   ("limit", q.limit.map toString),
   ("sort", q.sort.map DeviceSort.toWire)]

def deviceQueryKeys : List String :=
  ["fields[devices]", "filter[id]", "filter[name]", "filter[platform]",
   "filter[status]", "filter[udid]", "limit", "sort"]

lemma deviceQuery_queries_eq_table (q : DeviceQuery) :
    q.queries = List.filterMap pairUp (deviceQueryTable q) := by
  simp [DeviceQuery.queries, deviceQueryTable, filterMap_pairUp_cons]

lemma deviceQueryTable_keys (q : DeviceQuery) :
    (deviceQueryTable q).map Prod.fst = deviceQueryKeys := rfl

/-! ### UsersQuery (entities.rs lines 859-869) -/

structure UsersQuery where
  fields_apps : Option String := none
  fields_users : Option String := none
  include_field : Option String := none
  limit : Option Int := none
  sort : Option UserSort := none
  filter_roles : Option Role := none
  filter_visible_apps : Option String := none
  filter_username : Option String := none
  limit_visible_apps : Option Int := none
deriving Repr, DecidableEq

def UsersQuery.queries (q : UsersQuery) : List (String × String) :=
  optPush "fields[apps]" q.fields_apps
  ++ optPush "fields[users]" q.fields_users
  ++ optPush "include" q.include_field
  ++ optPush "limit" (q.limit.map toString)
  ++ optPush "sort" (q.sort.map UserSort.toWire)
  ++ optPush "filter[roles]" (q.filter_roles.map Role.toWire)
  ++ optPush "filter[visibleApps]" q.filter_visible_apps
  ++ optPush "filter[username]" q.filter_username
  ++ optPush "limit[visibleApps]" (q.limit_visible_apps.map toString)

def usersQueryTable (q : UsersQuery) : List (String × Option String) :=
  [("fields[apps]", q.fields_apps),
   ("fields[users]", q.fields_users),
   ("include", q.include_field),
   ("limit", q.limit.map toString),
   ("sort", q.sort.map UserSort.toWire),
   ("filter[roles]", q.filter_roles.map Role.toWire),
   ("filter[visibleApps]", q.filter_visible_apps),
   ("filter[username]", q.filter_username),
   ("limit[visibleApps]", q.limit_visible_apps.map toString)]

def usersQueryKeys : List String :=
  ["fields[apps]", "fields[users]", "include", "limit", "sort",
   "filter[roles]", "filter[visibleApps]", "filter[username]",
   "limit[visibleApps]"]

lemma usersQuery_queries_eq_table (q : UsersQuery) :
    q.queries = List.filterMap pairUp (usersQueryTable q) := by
  simp [UsersQuery.queries, usersQueryTable, filterMap_pairUp_cons]

lemma usersQueryTable_keys (q : UsersQuery) :
    (usersQueryTable q).map Prod.fst = usersQueryKeys := rfl

/-! ### UserVisibleAppsQuery (entities.rs lines 871-874) -/

structure UserVisibleAppsQuery where
  limit : Option Int := none
  fields_apps : Option String := none
deriving Repr, DecidableEq

def UserVisibleAppsQuery.queries (q : UserVisibleAppsQuery) :
    List (String × String) :=
  optPush "limit" (q.limit.map toString)
  ++ optPush "fields[apps]" q.fields_apps

def userVisibleAppsQueryTable (q : UserVisibleAppsQuery) :
    List (String × Option String) :=
  [("limit", q.limit.map toString),
   ("fields[apps]", q.fields_apps)]

def userVisibleAppsQueryKeys : List String := ["limit", "fields[apps]"]

lemma userVisibleAppsQuery_queries_eq_table (q : UserVisibleAppsQuery) :
    q.queries = List.filterMap pairUp (userVisibleAppsQueryTable q) := by
  simp [UserVisibleAppsQuery.queries, userVisibleAppsQueryTable,
    filterMap_pairUp_cons]

lemma userVisibleAppsQueryTable_keys (q : UserVisibleAppsQuery) :
    (userVisibleAppsQueryTable q).map Prod.fst = userVisibleAppsQueryKeys := rfl

/-! ## Claim C8 -/

/-- Claim C8: `BundleIdQuery::queries` produces exactly the (key, value)
pairs of the present fields, in declared field order (equality with the
declared-order table filtered to present rows, values rendered by the
identity for strings, decimal for integers, the wire mapping for enums);
the emitted keys always form a sublist of the declared key sequence; and
a query with only 2 of its 14 fields set yields exactly those 2 keys, in
declared order, with no others. -/
theorem bundle_id_query_encoding (q : BundleIdQuery) :
    q.queries = List.filterMap pairUp (bundleIdQueryTable q)
    ∧ (q.queries.map Prod.fst).Sublist bundleIdQueryKeys
    ∧ ({ filter_name := some "mini", limit := some 10 } : BundleIdQuery).queries
        = [("filter[name]", "mini"), ("limit", "10")] := by
  refine ⟨bundleIdQuery_queries_eq_table q, ?_, rfl⟩
  rw [bundleIdQuery_queries_eq_table]
  have h := filterMap_pairUp_keys_sublist (bundleIdQueryTable q)
  rwa [bundleIdQueryTable_keys] at h

/-- Witness for C8: the query object with only `filter_name` and `limit`
set encodes to exactly those two pairs, in declared order. -/
theorem bundle_id_query_encoding_witness :
    ({ filter_name := some "mini", limit := some 10 } : BundleIdQuery).queries
      = [("filter[name]", "mini"), ("limit", "10")] :=
  (bundle_id_query_encoding {}).2.2

/-! ## Claim C10 -/

/-- All wire keys declared by the six query encoders. -/
def allQueryKeys : List String :=
  bundleIdQueryKeys ++ certificateQueryKeys ++ profileQueryKeys
  ++ deviceQueryKeys ++ usersQueryKeys ++ userVisibleAppsQueryKeys

/-- Claim C10: a `ProfileQuery` with `filter_profile_state` present emits
the key " filter[profileState]" with a leading space, exactly as declared,
and never the space-less "filter[profileState]"; every key any of the six
encoders can emit is among its declared keys; and filtering all declared
keys for those whose first character is a space leaves exactly
" filter[profileState]" — every other key has no leading whitespace. -/
theorem profile_state_leading_space_key :
    (∀ (q : ProfileQuery) (s : ProfileState),
      q.filter_profile_state = some s →
      (" filter[profileState]", ProfileState.toWire s) ∈ q.queries
      ∧ ∀ v, ("filter[profileState]", v) ∉ q.queries)
    ∧ (∀ (q : ProfileQuery) (k v : String), (k, v) ∈ q.queries →
        k ∈ profileQueryKeys)
    ∧ (∀ (q : BundleIdQuery) (k v : String), (k, v) ∈ q.queries →
        k ∈ bundleIdQueryKeys)
    ∧ (∀ (q : CertificateQuery) (k v : String), (k, v) ∈ q.queries →
        k ∈ certificateQueryKeys)
    ∧ (∀ (q : DeviceQuery) (k v : String), (k, v) ∈ q.queries →
        k ∈ deviceQueryKeys)
    ∧ (∀ (q : UsersQuery) (k v : String), (k, v) ∈ q.queries →
        k ∈ usersQueryKeys)
    ∧ (∀ (q : UserVisibleAppsQuery) (k v : String), (k, v) ∈ q.queries →
        k ∈ userVisibleAppsQueryKeys)
    ∧ allQueryKeys.filter (fun k => k.data.head? == some ' ') =
        [" filter[profileState]"] := by
  refine ⟨?_, ?_, ?_, ?_, ?_, ?_, ?_, by decide⟩
  · intro q s hstate
    constructor
    · rw [profileQuery_queries_eq_table]
      refine List.mem_filterMap.mpr
        ⟨(" filter[profileState]", some (ProfileState.toWire s)), ?_, rfl⟩
      simp [profileQueryTable, hstate]
    · intro v hv
      have hk := mem_keys_of_mem_filterMap
        ((profileQuery_queries_eq_table q) ▸ hv)
      rw [profileQueryTable_keys] at hk
      exact absurd hk (by decide)
  · intro q k v h
    have hk := mem_keys_of_mem_filterMap ((profileQuery_queries_eq_table q) ▸ h)
    rwa [profileQueryTable_keys] at hk
  · intro q k v h
    have hk := mem_keys_of_mem_filterMap ((bundleIdQuery_queries_eq_table q) ▸ h)
    rwa [bundleIdQueryTable_keys] at hk
  · intro q k v h
    have hk := mem_keys_of_mem_filterMap ((certificateQuery_queries_eq_table q) ▸ h)
    rwa [certificateQueryTable_keys] at hk
  · intro q k v h
    have hk := mem_keys_of_mem_filterMap ((deviceQuery_queries_eq_table q) ▸ h)
    rwa [deviceQueryTable_keys] at hk
  · intro q k v h
    have hk := mem_keys_of_mem_filterMap ((usersQuery_queries_eq_table q) ▸ h)
    rwa [usersQueryTable_keys] at hk
  · intro q k v h
    have hk := mem_keys_of_mem_filterMap
      ((userVisibleAppsQuery_queries_eq_table q) ▸ h)
    rwa [userVisibleAppsQueryTable_keys] at hk

/-- Witness for C10: the query with only `filter_profile_state = ACTIVE`
emits the leading-space key and never the space-less one. -/
theorem profile_state_leading_space_key_witness :
    (" filter[profileState]", ProfileState.toWire ProfileState.ACTIVE) ∈
      ({ filter_profile_state := some ProfileState.ACTIVE } : ProfileQuery).queries
    ∧ ∀ v, ("filter[profileState]", v) ∉
      ({ filter_profile_state := some ProfileState.ACTIVE } : ProfileQuery).queries :=
  profile_state_leading_space_key.1
    { filter_profile_state := some ProfileState.ACTIVE } ProfileState.ACTIVE rfl

end AppStoreConnect
